import Mathlib

/-!
Verification of the spine-animator response-sanitation pipeline.

The definitions below are a shallow embedding of the three Python entry
points (spine_analyze.py, spine_refine.py, spine_update_anims.py).
Numbers that the source handles as floats are modelled as exact rationals;
the Euclidean distance of the refine merge, which the source obtains with
math.sqrt, is modelled with Real.sqrt over the rational squared distance.
The model response (the untrusted JSON document each script parses) is the
input of each embedded function; credential loading, image drawing and the
network call are external collaborators and are not part of the embedding.
-/

namespace SpineStudio

/-- Clamp a coordinate into [0, 1]; the source writes max(0.0, min(1.0, v)). -/
def clamp01 (v : ℚ) : ℚ := max 0 (min 1 v)

/-- Clamp a translate component into [-0.1, 0.1]; the source writes
max(-0.1, min(0.1, v)). -/
def clamp_translate (v : ℚ) : ℚ := max (-(1/10)) (min (1/10) v)

/-- An anchor as supplied to spine_refine.py / spine_update_anims.py through
the --anchors argument: the source reads id, x and y unconditionally. -/
structure Anchor where
  id : String
  x : ℚ
  y : ℚ
deriving DecidableEq

/-- An anchor of the model response of spine_refine.py: the source accesses
its id unconditionally and reads x, y and corrected with dict.get. -/
structure RespAnchor where
  id : String
  x? : Option ℚ
  y? : Option ℚ
  corrected? : Option Bool
deriving DecidableEq

/-- An anchor of the result of spine_refine.py (id, x, y, corrected). -/
structure OutAnchor where
  id : String
  x : ℚ
  y : ℚ
  corrected : Bool
deriving DecidableEq

/-- The dict comprehension corrected_map of spine_refine.py line 150: for a
duplicated id the later entry wins, hence the lookup in the reversed list. -/
def corrected_map (cs : List RespAnchor) (aid : String) : Option RespAnchor :=
  cs.reverse.find? (fun c => c.id == aid)

/-- new_x of spine_refine.py line 160: the corrected x, defaulting to the
original x when absent, clamped into [0, 1]. -/
def new_x (o : Anchor) (c : RespAnchor) : ℚ := clamp01 ((c.x?).getD o.x)

/-- new_y of spine_refine.py line 161. -/
def new_y (o : Anchor) (c : RespAnchor) : ℚ := clamp01 ((c.y?).getD o.y)

/-- The squared Euclidean displacement of spine_refine.py line 162,
(new_x - x)^2 + (new_y - y)^2, before the square root is taken. -/
def dist_sq (o : Anchor) (c : RespAnchor) : ℚ :=
  (new_x o c - o.x) ^ 2 + (new_y o c - o.y) ^ 2

/-- dist of spine_refine.py line 162: math.sqrt of the squared displacement. -/
noncomputable def dist (o : Anchor) (c : RespAnchor) : ℝ :=
  Real.sqrt ((dist_sq o c : ℚ) : ℝ)

/-- The test dist > 0.005 of spine_refine.py lines 164 and 170, expressed on
the squared distance: since both sides are nonnegative and squaring is
monotone, sqrt d2 > 0.005 holds exactly when d2 > 0.005^2 = 1/40000; the
lemma moved_iff_dist_gt below certifies the equivalence. -/
def moved (o : Anchor) (c : RespAnchor) : Bool :=
  decide ((1 : ℚ) / 40000 < dist_sq o c)

/-- The counting predicate of spine_refine.py line 164:
corrected.get(corrected-key, False) or dist > 0.005. -/
def counts_corrected (o : Anchor) (c : RespAnchor) : Bool :=
  (c.corrected?).getD false || moved o c

/-- The flag written at spine_refine.py line 170:
corrected.get(corrected-key, dist > 0.005) - the model flag when present,
the distance test only as the dict.get default. -/
def flag_corrected (o : Anchor) (c : RespAnchor) : Bool :=
  (c.corrected?).getD (moved o c)

/-- The result anchor built at spine_refine.py lines 166-171 when a
correction exists for the original anchor. -/
def merge_corrected (o : Anchor) (c : RespAnchor) : OutAnchor :=
  ⟨o.id, new_x o c, new_y o c, flag_corrected o c⟩

/-- The loop of spine_refine.py lines 156-179, accumulating the result
anchors, the corrected count and the raw (unrounded) total movement. -/
noncomputable def refine_loop (cmap : String → Option RespAnchor) :
    List Anchor → List OutAnchor × ℕ × ℝ
  | [] => ([], 0, 0)
  | o :: rest =>
    let r := refine_loop cmap rest
    match cmap o.id with
    | some c =>
        (merge_corrected o c :: r.1,
         (if counts_corrected o c then 1 else 0) + r.2.1,
         dist o c + r.2.2)
    | none => (⟨o.id, o.x, o.y, false⟩ :: r.1, r.2.1, r.2.2)

/-- Python round(-, 6) on an exact value: round half to even. -/
noncomputable def round_half_even (r : ℝ) : ℤ :=
  haveI := Classical.propDecidable (Int.fract r = 1/2)
  if Int.fract r = 1/2 then (if 2 ∣ ⌊r⌋ then ⌊r⌋ else ⌊r⌋ + 1) else round r

/-- round(total, 6) of spine_refine.py line 185. -/
noncomputable def py_round6 (r : ℝ) : ℝ :=
  ((round_half_even (r * 1000000) : ℤ) : ℝ) / 1000000

/-- The success payload of spine_refine.py lines 181-186. -/
structure RefineSuccess where
  anchors : List OutAnchor
  corrected_count : ℕ
  total_movement : ℝ

/-- A result of spine_refine.py: the status/message error shape or the
success payload. -/
inductive RefineResult where
  | error (message : String)
  | success (s : RefineSuccess)

/-- The merge of spine_refine.py lines 148-186, for a nonempty parsed
response: loop over the original anchors and round the total movement. -/
noncomputable def refine_merge (anchors : List Anchor)
    (corrected_anchors : List RespAnchor) : RefineSuccess :=
  let r := refine_loop (corrected_map corrected_anchors) anchors
  ⟨r.1, r.2.1, py_round6 r.2.2⟩

/-- refine_anchors of spine_refine.py, from the parsed inputs onward: the
empty-anchors check of line 38, the missing-or-empty response anchors check
of line 145 (data = none models a response without an anchors key), then
the merge. -/
noncomputable def refine_anchors (anchors : List Anchor)
    (data : Option (List RespAnchor)) : RefineResult :=
  if anchors.isEmpty then .error ("No anchors provided")
  else
    match data with
    | none => .error ("AI did not return anchor corrections")
    | some cs =>
      if cs.isEmpty then .error ("AI did not return anchor corrections")
      else .success (refine_merge anchors cs)

/-- The per-anchor view of the loop body: the output anchor produced for one
original anchor. -/
def merge_one (cmap : String → Option RespAnchor) (o : Anchor) : OutAnchor :=
  match cmap o.id with
  | some c => merge_corrected o c
  | none => ⟨o.id, o.x, o.y, false⟩

/-- The per-anchor view of the count: whether one original anchor increments
corrected_count. -/
def counts_one (cmap : String → Option RespAnchor) (o : Anchor) : Bool :=
  match cmap o.id with
  | some c => counts_corrected o c
  | none => false

/-- The per-anchor view of the movement accumulation: the displacement
added for one original anchor (zero when no correction exists). -/
noncomputable def displacement (cmap : String → Option RespAnchor)
    (o : Anchor) : ℝ :=
  match cmap o.id with
  | some c => dist o c
  | none => 0

/-- Read a refine output anchor back as an original anchor (id, x, y). -/
def out_to_anchor (b : OutAnchor) : Anchor := ⟨b.id, b.x, b.y⟩

/-- Read a refine output anchor back as a model correction carrying its own
coordinates and corrected flag. -/
def out_to_resp (b : OutAnchor) : RespAnchor :=
  ⟨b.id, some b.x, some b.y, some b.corrected⟩

/-- An anchor of the model response of spine_analyze.py: every field is read
with dict.get. -/
structure RawAnchor where
  id? : Option String
  label? : Option String
  x? : Option ℚ
  y? : Option ℚ
  type? : Option String
deriving DecidableEq

/-- A sanitized anchor of spine_analyze.py lines 143-149: x, y clamped,
type and id defaulted. -/
structure SAnchor where
  id : String
  label? : Option String
  x : ℚ
  y : ℚ
  type : String
deriving DecidableEq

/-- The id derived at spine_analyze.py line 149 when the id is missing:
the label (or the word anchor) lower-cased, spaces turned to underscores. -/
def default_id (a : RawAnchor) : String :=
  (((a.label?).getD ("anchor")).toLower).replace (" ") ("_")

/-- The anchor sanitation of spine_analyze.py lines 143-149. -/
def sanitize_anchor (a : RawAnchor) : SAnchor :=
  { id := (a.id?).getD (default_id a)
    label? := a.label?
    x := clamp01 ((a.x?).getD (1/2))
    y := clamp01 ((a.y?).getD (1/2))
    type := (a.type?).getD ("joint") }

/-- A bone of the model response. The source fields are named from and to;
Lean reserves the word from, hence bfrom and bto. -/
structure Bone where
  id? : Option String
  bfrom : Option String
  bto : Option String
  parent? : Option String
deriving DecidableEq

/-- The bone filter of spine_analyze.py line 155: both endpoint ids must be
present (a missing endpoint, read as None by dict.get, never is). -/
def bone_valid (ids : List String) (b : Bone) : Bool :=
  (match b.bfrom with
   | some f => ids.contains f
   | none => false)
  &&
  (match b.bto with
   | some t => ids.contains t
   | none => false)

/-- A keyframe transform of the model response: every field read with
dict.get. -/
structure Transform where
  rotation? : Option ℚ
  translateX? : Option ℚ
  translateY? : Option ℚ
  scale? : Option ℚ
deriving DecidableEq

/-- A sanitized transform: translateX and translateY have been written
back by the sanitation, the other fields are untouched. -/
structure STransform where
  rotation? : Option ℚ
  translateX : ℚ
  translateY : ℚ
  scale? : Option ℚ
deriving DecidableEq

/-- The translate sanitation shared by spine_analyze.py lines 166-178 and
spine_update_anims.py lines 196-206: default missing components to 0; when
either component has absolute value above 1.0, divide both by 500; then
clamp each into [-0.1, 0.1]. -/
def sanitize_transform (t : Transform) : STransform :=
  let tx := (t.translateX?).getD 0
  let ty := (t.translateY?).getD 0
  let p := if 1 < |tx| ∨ 1 < |ty| then (tx / 500, ty / 500) else (tx, ty)
  { rotation? := t.rotation?
    translateX := clamp_translate p.1
    translateY := clamp_translate p.2
    scale? := t.scale? }

/-- A keyframe of the model response: a time and a mapping from anchor id to
transform, both read with dict.get (the mapping is kept as an association
list; json parsing leaves its keys unique). -/
structure Keyframe where
  time? : Option ℚ
  anchors? : Option (List (String × Transform))
deriving DecidableEq

/-- A sanitized keyframe. -/
structure SKeyframe where
  time? : Option ℚ
  anchors? : Option (List (String × STransform))
deriving DecidableEq

/-- An animation of the model response. -/
structure Animation where
  name? : Option String
  description? : Option String
  duration? : Option ℚ
  loop? : Option Bool
  keyframes? : Option (List Keyframe)
deriving DecidableEq

/-- A sanitized animation. -/
structure SAnimation where
  name? : Option String
  description? : Option String
  duration? : Option ℚ
  loop? : Option Bool
  keyframes? : Option (List SKeyframe)
deriving DecidableEq

/-- The keyframe pass of spine_analyze.py lines 164-178: every transform of
the mapping is sanitized in place; no entry is removed and a missing
mapping stays missing. -/
def sanitize_keyframe (kf : Keyframe) : SKeyframe :=
  { time? := kf.time?
    anchors? := (kf.anchors?).map
      (fun l => l.map (fun p => (p.1, sanitize_transform p.2))) }

/-- The animation pass of spine_analyze.py lines 163-178. -/
def sanitize_animation (a : Animation) : SAnimation :=
  { name? := a.name?
    description? := a.description?
    duration? := a.duration?
    loop? := a.loop?
    keyframes? := (a.keyframes?).map (fun l => l.map sanitize_keyframe) }

/-- The keyframe pass of spine_update_anims.py lines 190-208: entries keyed
by an unknown anchor id are skipped, the surviving transforms are sanitized,
and the rebuilt mapping (valid_anchors) is written back unconditionally, so
a missing mapping becomes the empty one. -/
def update_keyframe (ids : List String) (kf : Keyframe) : SKeyframe :=
  { time? := kf.time?
    anchors? := some
      ((((kf.anchors?).getD []).filter (fun p => ids.contains p.1)).map
        (fun p => (p.1, sanitize_transform p.2))) }

/-- The animation pass of spine_update_anims.py lines 189-208. -/
def update_animation (ids : List String) (a : Animation) : SAnimation :=
  { name? := a.name?
    description? := a.description?
    duration? := a.duration?
    loop? := a.loop?
    keyframes? := (a.keyframes?).map (fun l => l.map (update_keyframe ids)) }

/-- The parsed model response of spine_analyze.py: each top-level field read
with dict.get or guarded by an in-test; a none list field models a missing
key. -/
structure AnalyzeData where
  image_type? : Option String
  description? : Option String
  anchors? : Option (List RawAnchor)
  bones? : Option (List Bone)
  animations? : Option (List Animation)
deriving DecidableEq

/-- The success payload of spine_analyze.py lines 180-187. -/
structure AnalyzeSuccess where
  image_type : String
  description : String
  anchors : List SAnchor
  bones : List Bone
  animations : List SAnimation
deriving DecidableEq

/-- A result of spine_analyze.py. -/
inductive AnalyzeResult where
  | error (message : String)
  | success (s : AnalyzeSuccess)
deriving DecidableEq

/-- The anchor_ids set of spine_analyze.py line 152, taken over the
sanitized anchors. -/
def anchor_ids_of (ra : List RawAnchor) : List String :=
  (ra.map sanitize_anchor).map SAnchor.id

/-- The valid_bones list of spine_analyze.py lines 153-157. -/
def valid_bones_of (ra : List RawAnchor) (rb : List Bone) : List Bone :=
  rb.filter (bone_valid (anchor_ids_of ra))

/-- analyze_image of spine_analyze.py from the parsed response onward:
the three presence checks of lines 135-140 in source order, the anchor
sanitation, the bone filter with its emptiness check, and the animation
sanitation. -/
def analyze_image (data : AnalyzeData) : AnalyzeResult :=
  match data.anchors? with
  | none => .error ("AI did not detect any anchor points")
  | some raw_anchors =>
    if raw_anchors.isEmpty then .error ("AI did not detect any anchor points")
    else
      match data.bones? with
      | none => .error ("AI did not detect any bones")
      | some raw_bones =>
        if raw_bones.isEmpty then .error ("AI did not detect any bones")
        else
          match data.animations? with
          | none => .error ("AI did not generate any animations")
          | some anims =>
            if anims.isEmpty then .error ("AI did not generate any animations")
            else
              if (valid_bones_of raw_anchors raw_bones).isEmpty then
                .error ("No valid bones after validation")
              else
                .success
                  { image_type := (data.image_type?).getD ("unknown")
                    description := (data.description?).getD ("")
                    anchors := raw_anchors.map sanitize_anchor
                    bones := valid_bones_of raw_anchors raw_bones
                    animations := anims.map sanitize_animation }

/-- A result of spine_update_anims.py. -/
inductive UpdateResult where
  | error (message : String)
  | success (animations : List SAnimation)
deriving DecidableEq

/-- update_animations of spine_update_anims.py from the parsed inputs
onward: the empty-anchors check of line 44, the animations presence check of
line 184 (data = none models a response without an animations key), then the
keyframe pruning and translate sanitation against the supplied anchor ids. -/
def update_animations (anchors : List Anchor)
    (data : Option (List Animation)) : UpdateResult :=
  if anchors.isEmpty then .error ("No anchors provided")
  else
    match data with
    | none => .error ("AI did not generate any animations")
    | some anims =>
      if anims.isEmpty then .error ("AI did not generate any animations")
      else
        let anchor_ids := anchors.map Anchor.id
        .success (anims.map (update_animation anchor_ids))

/-- The status key of a spine_analyze.py result document. -/
def analyze_status : AnalyzeResult → String
  | .error _ => "error"
  | .success _ => "success"

/-- The exit code of spine_analyze.py main (lines 204-205): 1 when the
result status is the error one, otherwise the normal exit 0. -/
def analyze_exit (r : AnalyzeResult) : ℕ :=
  if analyze_status r = "error" then 1 else 0

/-- The status key of a spine_refine.py result document. -/
def refine_status : RefineResult → String
  | .error _ => "error"
  | .success _ => "success"

/-- The exit code of spine_refine.py main (lines 204-205). -/
def refine_exit (r : RefineResult) : ℕ :=
  if refine_status r = "error" then 1 else 0

/-- The status key of a spine_update_anims.py result document. -/
def update_status : UpdateResult → String
  | .error _ => "error"
  | .success _ => "success"

/-- The exit code of spine_update_anims.py main (lines 232-233). -/
def update_exit (r : UpdateResult) : ℕ :=
  if update_status r = "error" then 1 else 0

/-! ### Properties of the clamps and of the distance test -/

lemma clamp01_nonneg (v : ℚ) : 0 ≤ clamp01 v := le_max_left 0 _

lemma clamp01_le_one (v : ℚ) : clamp01 v ≤ 1 :=
  max_le (by norm_num) (min_le_left 1 v)

lemma clamp01_eq_self {v : ℚ} (h0 : 0 ≤ v) (h1 : v ≤ 1) : clamp01 v = v := by
  unfold clamp01
  rw [min_eq_right h1, max_eq_right h0]

lemma clamp_translate_lower (v : ℚ) : -(1/10) ≤ clamp_translate v :=
  le_max_left _ _

lemma clamp_translate_upper (v : ℚ) : clamp_translate v ≤ 1/10 :=
  max_le (by norm_num) (min_le_left _ _)

lemma dist_sq_nonneg (o : Anchor) (c : RespAnchor) : 0 ≤ dist_sq o c := by
  unfold dist_sq
  positivity

/-- The boolean distance test of the embedding agrees with the source
predicate math.sqrt(squared displacement) > 0.005. -/
lemma moved_iff_dist_gt (o : Anchor) (c : RespAnchor) :
    moved o c = true ↔ (5 : ℝ) / 1000 < dist o c := by
  have hcast : (((5 : ℝ)/1000) ^ 2 < ((dist_sq o c : ℚ) : ℝ))
      ↔ ((1 : ℚ)/40000 < dist_sq o c) := by
    rw [show ((5 : ℝ)/1000) ^ 2 = (((1 : ℚ)/40000 : ℚ) : ℝ) by norm_num]
    exact Rat.cast_lt
  unfold moved dist
  rw [decide_eq_true_iff, Real.lt_sqrt (by norm_num), hcast]

lemma dist_eq_zero_of (o : Anchor) (c : RespAnchor) (h : dist_sq o c = 0) :
    dist o c = 0 := by
  unfold dist
  rw [h]
  simp

/-! ### Structure of the refine loop -/

lemma refine_loop_anchors (cmap : String → Option RespAnchor)
    (l : List Anchor) : (refine_loop cmap l).1 = l.map (merge_one cmap) := by
  induction l with
  | nil => rfl
  | cons o rest ih =>
    simp only [refine_loop]
    cases h : cmap o.id <;> simp [merge_one, h, ih]

lemma refine_loop_count (cmap : String → Option RespAnchor)
    (l : List Anchor) :
    (refine_loop cmap l).2.1 = (l.filter (counts_one cmap)).length := by
  induction l with
  | nil => rfl
  | cons o rest ih =>
    simp only [refine_loop]
    cases h : cmap o.id with
    | none => simp [h, ih, counts_one, List.filter_cons]
    | some c =>
      by_cases hc : counts_corrected o c
      · simp [h, hc, ih, counts_one, List.filter_cons, Nat.add_comm]
      · simp [h, hc, ih, counts_one, List.filter_cons]

lemma refine_loop_total (cmap : String → Option RespAnchor)
    (l : List Anchor) :
    (refine_loop cmap l).2.2 = (l.map (displacement cmap)).sum := by
  induction l with
  | nil => rfl
  | cons o rest ih =>
    simp only [refine_loop, List.map_cons, List.sum_cons]
    cases h : cmap o.id <;> simp [h, ih, displacement]

lemma merge_one_id (cmap : String → Option RespAnchor) (o : Anchor) :
    (merge_one cmap o).id = o.id := by
  unfold merge_one
  cases cmap o.id <;> rfl

lemma refine_merge_anchors (as : List Anchor) (cs : List RespAnchor) :
    (refine_merge as cs).anchors = as.map (merge_one (corrected_map cs)) := by
  unfold refine_merge
  exact refine_loop_anchors _ as

lemma refine_merge_count (as : List Anchor) (cs : List RespAnchor) :
    (refine_merge as cs).corrected_count
      = (as.filter (counts_one (corrected_map cs))).length := by
  unfold refine_merge
  exact refine_loop_count _ as

lemma refine_merge_total (as : List Anchor) (cs : List RespAnchor) :
    (refine_merge as cs).total_movement
      = py_round6 ((as.map (displacement (corrected_map cs))).sum) := by
  unfold refine_merge
  exact congrArg py_round6 (refine_loop_total _ as)

lemma refine_merge_ids (as : List Anchor) (cs : List RespAnchor) :
    (refine_merge as cs).anchors.map OutAnchor.id = as.map Anchor.id := by
  rw [refine_merge_anchors, List.map_map]
  exact List.map_congr_left (fun o _ => merge_one_id _ o)

lemma sum_displacement_filter (cmap : String → Option RespAnchor)
    (l : List Anchor) :
    ((l.filter (fun o => (cmap o.id).isSome)).map (displacement cmap)).sum
      = (l.map (displacement cmap)).sum := by
  induction l with
  | nil => rfl
  | cons o rest ih =>
    cases h : cmap o.id with
    | none => simp [List.filter_cons, h, displacement, ih]
    | some c => simp [List.filter_cons, h, displacement, ih]

/-! ### Python rounding at zero -/

lemma round_half_even_zero : round_half_even 0 = 0 := by
  unfold round_half_even
  rw [if_neg, round_zero]
  rw [Int.fract_zero]
  norm_num

lemma py_round6_zero : py_round6 0 = 0 := by
  unfold py_round6
  rw [zero_mul, round_half_even_zero]
  norm_num

/-! ### The correction map on lists with pairwise distinct ids -/

lemma corrected_map_of_nodup {cs : List RespAnchor}
    (h : (cs.map RespAnchor.id).Nodup) {c : RespAnchor} (hc : c ∈ cs) :
    corrected_map cs c.id = some c := by
  induction cs with
  | nil => cases hc
  | cons a rest ih =>
    rw [List.map_cons, List.nodup_cons] at h
    unfold corrected_map
    rw [List.reverse_cons, List.find?_append]
    rcases List.mem_cons.mp hc with rfl | hmem
    · have hnone : rest.reverse.find? (fun x => x.id == c.id) = none := by
        rw [List.find?_eq_none]
        intro x hx
        simp only [beq_iff_eq]
        intro hxeq
        exact h.1 (List.mem_map.mpr ⟨x, List.mem_reverse.mp hx, hxeq⟩)
      rw [hnone]
      simp [List.find?]
    · have hfind := ih h.2 hmem
      unfold corrected_map at hfind
      rw [hfind]
      rfl

/-! ### Feeding a refine output back in as its own correction -/

lemma new_x_out (b : OutAnchor) (h0 : 0 ≤ b.x) (h1 : b.x ≤ 1) :
    new_x (out_to_anchor b) (out_to_resp b) = b.x := by
  unfold new_x out_to_anchor out_to_resp
  simpa using clamp01_eq_self h0 h1

lemma new_y_out (b : OutAnchor) (h0 : 0 ≤ b.y) (h1 : b.y ≤ 1) :
    new_y (out_to_anchor b) (out_to_resp b) = b.y := by
  unfold new_y out_to_anchor out_to_resp
  simpa using clamp01_eq_self h0 h1

lemma dist_sq_out (b : OutAnchor) (h0x : 0 ≤ b.x) (h1x : b.x ≤ 1)
    (h0y : 0 ≤ b.y) (h1y : b.y ≤ 1) :
    dist_sq (out_to_anchor b) (out_to_resp b) = 0 := by
  unfold dist_sq
  rw [new_x_out b h0x h1x, new_y_out b h0y h1y]
  simp [out_to_anchor]

lemma moved_out (b : OutAnchor) (h0x : 0 ≤ b.x) (h1x : b.x ≤ 1)
    (h0y : 0 ≤ b.y) (h1y : b.y ≤ 1) :
    moved (out_to_anchor b) (out_to_resp b) = false := by
  unfold moved
  rw [dist_sq_out b h0x h1x h0y h1y]
  norm_num

lemma merge_corrected_out (b : OutAnchor) (h0x : 0 ≤ b.x) (h1x : b.x ≤ 1)
    (h0y : 0 ≤ b.y) (h1y : b.y ≤ 1) :
    merge_corrected (out_to_anchor b) (out_to_resp b)
      = ⟨b.id, b.x, b.y, b.corrected⟩ := by
  unfold merge_corrected flag_corrected
  rw [new_x_out b h0x h1x, new_y_out b h0y h1y]
  rfl

lemma counts_corrected_out (b : OutAnchor) (h0x : 0 ≤ b.x) (h1x : b.x ≤ 1)
    (h0y : 0 ≤ b.y) (h1y : b.y ≤ 1) :
    counts_corrected (out_to_anchor b) (out_to_resp b) = b.corrected := by
  unfold counts_corrected
  rw [moved_out b h0x h1x h0y h1y]
  simp [out_to_resp]

/-! ### Destructuring a success result of each operation -/

lemma analyze_success_spec (data : AnalyzeData) (s : AnalyzeSuccess)
    (h : analyze_image data = AnalyzeResult.success s) :
    ∃ ra rb anims, data.anchors? = some ra ∧ data.bones? = some rb ∧
      data.animations? = some anims ∧
      s.anchors = ra.map sanitize_anchor ∧
      s.bones = valid_bones_of ra rb ∧
      s.animations = anims.map sanitize_animation := by
  cases hA : data.anchors? with
  | none => simp [analyze_image, hA] at h
  | some ra =>
    by_cases hre : ra.isEmpty
    · simp [analyze_image, hA, hre] at h
    · cases hB : data.bones? with
      | none => simp [analyze_image, hA, hre, hB] at h
      | some rb =>
        by_cases hrbe : rb.isEmpty
        · simp [analyze_image, hA, hre, hB, hrbe] at h
        · cases hN : data.animations? with
          | none => simp [analyze_image, hA, hre, hB, hrbe, hN] at h
          | some anims =>
            by_cases hne : anims.isEmpty
            · simp [analyze_image, hA, hre, hB, hrbe, hN, hne] at h
            · by_cases hvb : (valid_bones_of ra rb).isEmpty
              · simp [analyze_image, hA, hre, hB, hrbe, hN, hne, hvb] at h
              · simp only [analyze_image, hA, hB, hN] at h
                rw [if_neg hre, if_neg hrbe, if_neg hne, if_neg hvb] at h
                cases h
                exact ⟨ra, rb, anims, rfl, rfl, rfl, rfl, rfl, rfl⟩

lemma analyze_error_of_no_valid_bones (data : AnalyzeData)
    (ra : List RawAnchor) (rb : List Bone) (anims : List Animation)
    (hA : data.anchors? = some ra) (hra : ra ≠ [])
    (hB : data.bones? = some rb) (hrb : rb ≠ [])
    (hN : data.animations? = some anims) (hn : anims ≠ [])
    (hvb : valid_bones_of ra rb = []) :
    analyze_image data = AnalyzeResult.error ("No valid bones after validation") := by
  simp [analyze_image, hA, hB, hN, hvb, List.isEmpty_iff, hra, hrb, hn]

lemma analyze_error_of_no_animations (data : AnalyzeData)
    (ra : List RawAnchor) (rb : List Bone)
    (hA : data.anchors? = some ra) (hra : ra ≠ [])
    (hB : data.bones? = some rb) (hrb : rb ≠ [])
    (hN : data.animations? = none ∨ data.animations? = some []) :
    analyze_image data = AnalyzeResult.error ("AI did not generate any animations") := by
  rcases hN with hN | hN <;>
    simp [analyze_image, hA, hB, hN, List.isEmpty_iff, hra, hrb]

lemma refine_success_spec (as : List Anchor) (data : Option (List RespAnchor))
    (r : RefineSuccess)
    (h : refine_anchors as data = RefineResult.success r) :
    ∃ cs, data = some cs ∧ r = refine_merge as cs ∧ as ≠ [] ∧ cs ≠ [] := by
  by_cases ha : as.isEmpty
  · simp [refine_anchors, ha] at h
  · cases hd : data with
    | none => simp [refine_anchors, ha, hd] at h
    | some cs =>
      by_cases hc : cs.isEmpty
      · simp [refine_anchors, ha, hd, hc] at h
      · refine ⟨cs, rfl, ?_, ?_, ?_⟩
        · simp only [refine_anchors, ha, hd, hc, Bool.false_eq_true,
            if_false, RefineResult.success.injEq] at h
          exact h.symm
        · exact fun hnil => ha (by simp [hnil])
        · exact fun hnil => hc (by simp [hnil])

lemma refine_anchors_eq_success (as : List Anchor) (cs : List RespAnchor)
    (ha : as ≠ []) (hc : cs ≠ []) :
    refine_anchors as (some cs)
      = RefineResult.success (refine_merge as cs) := by
  simp [refine_anchors, List.isEmpty_iff, ha, hc]

lemma forall2_map_self {α β : Type} {P : α → β → Prop} {f : α → β}
    {l : List α} (h : ∀ a ∈ l, P a (f a)) : List.Forall₂ P l (l.map f) := by
  induction l with
  | nil => exact List.Forall₂.nil
  | cons a rest ih =>
    exact List.Forall₂.cons (h a (List.mem_cons_self a rest))
      (ih fun b hb => h b (List.mem_cons_of_mem a hb))

lemma refine_success_ext (a b : RefineSuccess) (h1 : a.anchors = b.anchors)
    (h2 : a.corrected_count = b.corrected_count)
    (h3 : a.total_movement = b.total_movement) : a = b := by
  cases a
  cases b
  cases h1
  cases h2
  cases h3
  rfl

/-! ### Range of the sanitized values -/

lemma sanitize_anchor_range (a : RawAnchor) :
    0 ≤ (sanitize_anchor a).x ∧ (sanitize_anchor a).x ≤ 1
      ∧ 0 ≤ (sanitize_anchor a).y ∧ (sanitize_anchor a).y ≤ 1 := by
  unfold sanitize_anchor
  exact ⟨clamp01_nonneg _, clamp01_le_one _, clamp01_nonneg _, clamp01_le_one _⟩

lemma sanitize_transform_range (t : Transform) :
    (-(1/10) ≤ (sanitize_transform t).translateX
      ∧ (sanitize_transform t).translateX ≤ 1/10)
    ∧ (-(1/10) ≤ (sanitize_transform t).translateY
      ∧ (sanitize_transform t).translateY ≤ 1/10) := by
  unfold sanitize_transform
  exact ⟨⟨clamp_translate_lower _, clamp_translate_upper _⟩,
    ⟨clamp_translate_lower _, clamp_translate_upper _⟩⟩

lemma merge_one_range (cmap : String → Option RespAnchor) (o : Anchor)
    (h0x : 0 ≤ o.x) (h1x : o.x ≤ 1) (h0y : 0 ≤ o.y) (h1y : o.y ≤ 1) :
    0 ≤ (merge_one cmap o).x ∧ (merge_one cmap o).x ≤ 1
      ∧ 0 ≤ (merge_one cmap o).y ∧ (merge_one cmap o).y ≤ 1 := by
  unfold merge_one
  cases cmap o.id with
  | none => exact ⟨h0x, h1x, h0y, h1y⟩
  | some c =>
    unfold merge_corrected new_x new_y
    exact ⟨clamp01_nonneg _, clamp01_le_one _, clamp01_nonneg _,
      clamp01_le_one _⟩

lemma refine_merge_anchors_range (as : List Anchor) (cs : List RespAnchor)
    (h : ∀ o ∈ as, 0 ≤ o.x ∧ o.x ≤ 1 ∧ 0 ≤ o.y ∧ o.y ≤ 1) :
    ∀ b ∈ (refine_merge as cs).anchors,
      0 ≤ b.x ∧ b.x ≤ 1 ∧ 0 ≤ b.y ∧ b.y ≤ 1 := by
  rw [refine_merge_anchors]
  intro b hb
  obtain ⟨o, ho, rfl⟩ := List.mem_map.mp hb
  obtain ⟨h0x, h1x, h0y, h1y⟩ := h o ho
  exact merge_one_range _ o h0x h1x h0y h1y

/-! ### Shape of the sanitized keyframe transforms -/

lemma sanitize_animation_trans_shape (a0 : Animation) (kfs : List SKeyframe)
    (hk : (sanitize_animation a0).keyframes? = some kfs) (kf : SKeyframe)
    (hkf : kf ∈ kfs) (l : List (String × STransform))
    (hl : kf.anchors? = some l) (p : String × STransform) (hp : p ∈ l) :
    ∃ t0, p.2 = sanitize_transform t0 := by
  unfold sanitize_animation at hk
  simp only [Option.map_eq_some'] at hk
  obtain ⟨kfs0, _, rfl⟩ := hk
  obtain ⟨kf0, _, rfl⟩ := List.mem_map.mp hkf
  unfold sanitize_keyframe at hl
  simp only [Option.map_eq_some'] at hl
  obtain ⟨l0, _, rfl⟩ := hl
  obtain ⟨q, _, rfl⟩ := List.mem_map.mp hp
  exact ⟨q.2, rfl⟩

lemma update_animation_trans_shape (ids : List String) (a0 : Animation)
    (kfs : List SKeyframe) (hk : (update_animation ids a0).keyframes? = some kfs)
    (kf : SKeyframe) (hkf : kf ∈ kfs) (l : List (String × STransform))
    (hl : kf.anchors? = some l) (p : String × STransform) (hp : p ∈ l) :
    ∃ t0, p.2 = sanitize_transform t0 := by
  unfold update_animation at hk
  simp only [Option.map_eq_some'] at hk
  obtain ⟨kfs0, _, rfl⟩ := hk
  obtain ⟨kf0, _, rfl⟩ := List.mem_map.mp hkf
  unfold update_keyframe at hl
  simp only [Option.some.injEq] at hl
  subst hl
  obtain ⟨q, _, rfl⟩ := List.mem_map.mp hp
  exact ⟨q.2, rfl⟩

/-! ### Feeding a refine output back as its own correction, list level -/

lemma corrected_map_feedback (bs : List OutAnchor)
    (hnd : (bs.map OutAnchor.id).Nodup) (b : OutAnchor) (hb : b ∈ bs) :
    corrected_map (bs.map out_to_resp) b.id = some (out_to_resp b) := by
  have hnd2 : ((bs.map out_to_resp).map RespAnchor.id).Nodup := by
    rw [List.map_map]
    exact hnd
  exact corrected_map_of_nodup hnd2 (List.mem_map_of_mem out_to_resp hb)

lemma refine_merge_feedback_anchors (bs : List OutAnchor)
    (hrange : ∀ b ∈ bs, 0 ≤ b.x ∧ b.x ≤ 1 ∧ 0 ≤ b.y ∧ b.y ≤ 1)
    (hnd : (bs.map OutAnchor.id).Nodup) :
    (refine_merge (bs.map out_to_anchor) (bs.map out_to_resp)).anchors
      = bs := by
  rw [refine_merge_anchors, List.map_map]
  have h : ∀ b ∈ bs,
      (merge_one (corrected_map (bs.map out_to_resp)) ∘ out_to_anchor) b
        = id b := by
    intro b hb
    obtain ⟨h0x, h1x, h0y, h1y⟩ := hrange b hb
    show merge_one (corrected_map (bs.map out_to_resp)) (out_to_anchor b) = b
    unfold merge_one
    rw [show (out_to_anchor b).id = b.id from rfl,
      corrected_map_feedback bs hnd b hb]
    exact merge_corrected_out b h0x h1x h0y h1y
  rw [List.map_congr_left h, List.map_id]

lemma refine_merge_feedback_count (bs : List OutAnchor)
    (hrange : ∀ b ∈ bs, 0 ≤ b.x ∧ b.x ≤ 1 ∧ 0 ≤ b.y ∧ b.y ≤ 1)
    (hnd : (bs.map OutAnchor.id).Nodup) :
    (refine_merge (bs.map out_to_anchor) (bs.map out_to_resp)).corrected_count
      = (bs.filter OutAnchor.corrected).length := by
  rw [refine_merge_count, List.filter_map, List.length_map]
  congr 1
  apply List.filter_congr
  intro b hb
  obtain ⟨h0x, h1x, h0y, h1y⟩ := hrange b hb
  show counts_one (corrected_map (bs.map out_to_resp)) (out_to_anchor b)
    = b.corrected
  unfold counts_one
  rw [show (out_to_anchor b).id = b.id from rfl,
    corrected_map_feedback bs hnd b hb]
  exact counts_corrected_out b h0x h1x h0y h1y

lemma refine_merge_feedback_total (bs : List OutAnchor)
    (hrange : ∀ b ∈ bs, 0 ≤ b.x ∧ b.x ≤ 1 ∧ 0 ≤ b.y ∧ b.y ≤ 1)
    (hnd : (bs.map OutAnchor.id).Nodup) :
    (refine_merge (bs.map out_to_anchor) (bs.map out_to_resp)).total_movement
      = 0 := by
  rw [refine_merge_total]
  have h : ∀ x ∈ (bs.map out_to_anchor).map
      (displacement (corrected_map (bs.map out_to_resp))), x = 0 := by
    intro x hx
    rw [List.map_map] at hx
    obtain ⟨b, hb, rfl⟩ := List.mem_map.mp hx
    obtain ⟨h0x, h1x, h0y, h1y⟩ := hrange b hb
    show displacement (corrected_map (bs.map out_to_resp)) (out_to_anchor b) = 0
    unfold displacement
    rw [show (out_to_anchor b).id = b.id from rfl,
      corrected_map_feedback bs hnd b hb]
    exact dist_eq_zero_of _ _ (dist_sq_out b h0x h1x h0y h1y)
  rw [List.sum_eq_zero h, py_round6_zero]

lemma update_success_spec (as : List Anchor) (data : Option (List Animation))
    (out : List SAnimation)
    (h : update_animations as data = UpdateResult.success out) :
    ∃ anims, data = some anims
      ∧ out = anims.map (update_animation (as.map Anchor.id))
      ∧ as ≠ [] ∧ anims ≠ [] := by
  by_cases ha : as.isEmpty
  · simp [update_animations, ha] at h
  · cases hd : data with
    | none => simp [update_animations, ha, hd] at h
    | some anims =>
      by_cases hn : anims.isEmpty
      · simp [update_animations, ha, hd, hn] at h
      · refine ⟨anims, rfl, ?_, ?_, ?_⟩
        · simp only [update_animations, ha, hd, hn, Bool.false_eq_true,
            if_false, UpdateResult.success.injEq] at h
          exact h.symm
        · exact fun hnil => ha (by simp [hnil])
        · exact fun hnil => hn (by simp [hnil])

/-! ## The claims -/

/-- Claim C1 (code bug witness): at the spec scenario - original anchor a at
(0.10, 0.10), model correction (0.12, 0.10) with the corrected flag present
and false - the displacement is exactly 0.02 (third conjunct, via the real
square root) and 0.02 exceeds 0.005 (fourth conjunct), so the claim and the
spec mark the anchor corrected; the code instead returns the anchor with
corrected = false (first conjunct) while still counting it, with
corrected_count = 1 (second conjunct): the flag and the count disagree,
lines 164 and 170 of spine_refine.py using different predicates. -/
theorem claim_C1_flag_count_divergence :
    (refine_merge [⟨"a", 1/10, 1/10⟩]
        [⟨"a", some (12/100), some (1/10), some false⟩]).anchors
      = [⟨"a", 12/100, 1/10, false⟩]
    ∧ (refine_merge [⟨"a", 1/10, 1/10⟩]
        [⟨"a", some (12/100), some (1/10), some false⟩]).corrected_count = 1
    ∧ dist ⟨"a", 1/10, 1/10⟩ ⟨"a", some (12/100), some (1/10), some false⟩
      = 1/50
    ∧ ((5 : ℝ)/1000 < 1/50) := by
  have hc : corrected_map [⟨"a", some (12/100), some (1/10), some false⟩] "a"
      = some ⟨"a", some (12/100), some (1/10), some false⟩ := by
    simp [corrected_map, List.find?]
  have hm : moved ⟨"a", 1/10, 1/10⟩
      ⟨"a", some (12/100), some (1/10), some false⟩ = true := by
    unfold moved
    rw [decide_eq_true_iff]
    norm_num [dist_sq, new_x, new_y, clamp01, min_def, max_def]
  refine ⟨?_, ?_, ?_, by norm_num⟩
  · rw [refine_merge_anchors]
    simp only [List.map_cons, List.map_nil, merge_one, hc]
    norm_num [merge_corrected, new_x, new_y, flag_corrected, clamp01,
      min_def, max_def]
  · have hco : counts_one
        (corrected_map [⟨"a", some (12/100), some (1/10), some false⟩])
        ⟨"a", 1/10, 1/10⟩ = true := by
      unfold counts_one
      rw [hc]
      show counts_corrected _ _ = true
      unfold counts_corrected
      rw [hm]
      simp
    rw [refine_merge_count, List.filter_cons, if_pos hco]
    simp
  · have hd : dist_sq ⟨"a", 1/10, 1/10⟩
        ⟨"a", some (12/100), some (1/10), some false⟩ = 1/2500 := by
      norm_num [dist_sq, new_x, new_y, clamp01, min_def, max_def]
    unfold dist
    rw [hd, show (((1 : ℚ)/2500 : ℚ) : ℝ) = ((1 : ℝ)/50)^2 by norm_num]
    exact Real.sqrt_sq (by norm_num)

/-- Claim C2 counterexample: on the input translateX = 120,
translateY = 0.05, the code divides BOTH components by 500 (the trigger
tests either component), so translateY comes out as 0.0001 = 1/10000, not
0.05 as the claim asserts. -/
theorem claim_C2_counterexample :
    (sanitize_transform ⟨none, some 120, some (1/20), none⟩).translateY
      = 1/10000
    ∧ ((1 : ℚ)/10000) ≠ 1/20 := by
  constructor
  · have hcond : (1 : ℚ) < |((120 : ℚ))| ∨ (1 : ℚ) < |((1/20 : ℚ))| := by
      left
      rw [abs_of_pos] <;> norm_num
    simp only [sanitize_transform, Option.getD_some]
    rw [if_pos hcond]
    norm_num [clamp_translate, min_def, max_def]
  · norm_num

/-- Claim C2 amended: the translate pair is divided by 500 exactly when
EITHER component has absolute value above 1.0, and then both components are
divided together; a component at most 1.0 in magnitude is still divided
when the other component triggers the heuristic. On tx = 120, ty = 0.05 the
results are tx clamped to 0.1 and ty = 0.0001. -/
theorem claim_C2_amended :
    (∀ t : Transform,
      ((1 < |(t.translateX?).getD 0| ∨ 1 < |(t.translateY?).getD 0|) →
        (sanitize_transform t).translateX
          = clamp_translate (((t.translateX?).getD 0) / 500)
        ∧ (sanitize_transform t).translateY
          = clamp_translate (((t.translateY?).getD 0) / 500))
      ∧ ((|(t.translateX?).getD 0| ≤ 1 ∧ |(t.translateY?).getD 0| ≤ 1) →
        (sanitize_transform t).translateX
          = clamp_translate ((t.translateX?).getD 0)
        ∧ (sanitize_transform t).translateY
          = clamp_translate ((t.translateY?).getD 0)))
    ∧ (sanitize_transform ⟨none, some 120, some (1/20), none⟩).translateX
      = 1/10
    ∧ (sanitize_transform ⟨none, some 120, some (1/20), none⟩).translateY
      = 1/10000 := by
  have hcond : (1 : ℚ) < |((120 : ℚ))| ∨ (1 : ℚ) < |((1/20 : ℚ))| := by
    left
    rw [abs_of_pos] <;> norm_num
  refine ⟨fun t => ⟨fun h => ?_, fun h => ?_⟩, ?_, ?_⟩
  · constructor <;> (simp only [sanitize_transform]; rw [if_pos h])
  · have hno : ¬ (1 < |(t.translateX?).getD 0| ∨ 1 < |(t.translateY?).getD 0|) := by
      push_neg
      exact h
    constructor <;> (simp only [sanitize_transform]; rw [if_neg hno])
  · simp only [sanitize_transform, Option.getD_some]
    rw [if_pos hcond]
    norm_num [clamp_translate, min_def, max_def]
  · simp only [sanitize_transform, Option.getD_some]
    rw [if_pos hcond]
    norm_num [clamp_translate, min_def, max_def]

/-- Claim C2 amended, witness at a concrete input with the heuristic
triggered: tx = 2 exceeds 1 in magnitude, so both components are divided
by 500 before clamping. -/
theorem claim_C2_amended_witness :
    ((1 : ℚ) < |(((⟨none, some 2, some 0, none⟩ : Transform).translateX?).getD 0)|
      ∨ (1 : ℚ) < |(((⟨none, some 2, some 0, none⟩ : Transform).translateY?).getD 0)|)
    ∧ ((sanitize_transform ⟨none, some 2, some 0, none⟩).translateX
        = clamp_translate
            ((((⟨none, some 2, some 0, none⟩ : Transform).translateX?).getD 0) / 500)
      ∧ (sanitize_transform ⟨none, some 2, some 0, none⟩).translateY
        = clamp_translate
            ((((⟨none, some 2, some 0, none⟩ : Transform).translateY?).getD 0) / 500)) := by
  have h : (1 : ℚ) < |(((⟨none, some 2, some 0, none⟩ : Transform).translateX?).getD 0)|
      ∨ (1 : ℚ) < |(((⟨none, some 2, some 0, none⟩ : Transform).translateY?).getD 0)| := by
    left
    show (1 : ℚ) < |(2 : ℚ)|
    rw [abs_of_pos] <;> norm_num
  exact ⟨h, (claim_C2_amended.1 ⟨none, some 2, some 0, none⟩).1 h⟩

/-- Claim C3: the merge is total and order preserving - output ids equal
input ids in order (hence never fewer anchors), total_movement is the
rounded sum of the displacements of the anchors present in the correction
map, anchors absent from the map keep their original coordinates and are
not marked corrected, and for nonempty inputs the refine operation returns
exactly this merge as its success payload. -/
theorem claim_C3_merge_total_order :
    ∀ (as : List Anchor) (cs : List RespAnchor),
      ((refine_merge as cs).anchors.map OutAnchor.id = as.map Anchor.id)
      ∧ ((refine_merge as cs).anchors.length = as.length)
      ∧ ((refine_merge as cs).total_movement
          = py_round6 (((as.filter
              (fun o => ((corrected_map cs) o.id).isSome)).map
                (displacement (corrected_map cs))).sum))
      ∧ List.Forall₂ (fun (o : Anchor) (r : OutAnchor) =>
          corrected_map cs o.id = none → r = ⟨o.id, o.x, o.y, false⟩)
          as (refine_merge as cs).anchors
      ∧ (as ≠ [] → cs ≠ [] →
          refine_anchors as (some cs)
            = RefineResult.success (refine_merge as cs)) := by
  intro as cs
  refine ⟨refine_merge_ids as cs, ?_, ?_, ?_, refine_anchors_eq_success as cs⟩
  · have h := congrArg List.length (refine_merge_ids as cs)
    simpa using h
  · rw [refine_merge_total, sum_displacement_filter]
  · rw [refine_merge_anchors]
    apply forall2_map_self
    intro o _ hnone
    unfold merge_one
    rw [hnone]

/-- Claim C3 witness at a concrete input: one anchor, one unrelated model
correction. -/
theorem claim_C3_merge_total_order_witness :
    (([⟨"a", 1/2, 1/2⟩] : List Anchor) ≠ [])
    ∧ (([⟨"b", some 1, some 1, none⟩] : List RespAnchor) ≠ [])
    ∧ refine_anchors [⟨"a", 1/2, 1/2⟩] (some [⟨"b", some 1, some 1, none⟩])
      = RefineResult.success
          (refine_merge [⟨"a", 1/2, 1/2⟩] [⟨"b", some 1, some 1, none⟩]) := by
  refine ⟨by simp, by simp, ?_⟩
  exact (claim_C3_merge_total_order [⟨"a", 1/2, 1/2⟩]
    [⟨"b", some 1, some 1, none⟩]).2.2.2.2 (by simp) (by simp)

/-- Claim C4: every transform of every keyframe of every animation in a
success result of the Detect (analyze) or Regenerate (update) operation has
both sanitized translate components in [-0.1, 0.1]. -/
theorem claim_C4_translate_clamped :
    (∀ (data : AnalyzeData) (s : AnalyzeSuccess),
      analyze_image data = AnalyzeResult.success s →
      ∀ a ∈ s.animations, ∀ kfs, a.keyframes? = some kfs →
        ∀ kf ∈ kfs, ∀ l, kf.anchors? = some l → ∀ p ∈ l,
          (-(1/10) ≤ p.2.translateX ∧ p.2.translateX ≤ 1/10)
          ∧ (-(1/10) ≤ p.2.translateY ∧ p.2.translateY ≤ 1/10))
    ∧ (∀ (as0 : List Anchor) (d : Option (List Animation))
        (out : List SAnimation),
      update_animations as0 d = UpdateResult.success out →
      ∀ a ∈ out, ∀ kfs, a.keyframes? = some kfs →
        ∀ kf ∈ kfs, ∀ l, kf.anchors? = some l → ∀ p ∈ l,
          (-(1/10) ≤ p.2.translateX ∧ p.2.translateX ≤ 1/10)
          ∧ (-(1/10) ≤ p.2.translateY ∧ p.2.translateY ≤ 1/10)) := by
  constructor
  · intro data s h a ha kfs hk kf hkf l hl p hp
    obtain ⟨ra, rb, anims, hA, hB, hN, hsa, hsb, hsan⟩ :=
      analyze_success_spec data s h
    rw [hsan] at ha
    obtain ⟨a0, _, rfl⟩ := List.mem_map.mp ha
    obtain ⟨t0, ht0⟩ := sanitize_animation_trans_shape a0 kfs hk kf hkf l hl p hp
    rw [ht0]
    exact sanitize_transform_range t0
  · intro as0 d out h a ha kfs hk kf hkf l hl p hp
    obtain ⟨anims, rfl, hout, _, _⟩ := update_success_spec as0 d out h
    rw [hout] at ha
    obtain ⟨a0, _, rfl⟩ := List.mem_map.mp ha
    obtain ⟨t0, ht0⟩ := update_animation_trans_shape _ a0 kfs hk kf hkf l hl p hp
    rw [ht0]
    exact sanitize_transform_range t0

/-- Claim C4 witness: a concrete Detect response with one anchor, one bone
and one animation, whose success result the theorem bounds. -/
theorem claim_C4_translate_clamped_witness :
    analyze_image
        ⟨none, none, some [⟨some "a", none, some (1/2), some (1/2), none⟩],
          some [⟨some "b", some "a", some "a", none⟩],
          some [⟨none, none, none, none,
            some [⟨some 0, some [("a", ⟨none, some 0, some 0, none⟩)]⟩]⟩]⟩
      = AnalyzeResult.success
          { image_type := "unknown", description := "",
            anchors := [⟨some "a", none, some (1/2), some (1/2), none⟩].map
              sanitize_anchor,
            bones := valid_bones_of
              [⟨some "a", none, some (1/2), some (1/2), none⟩]
              [⟨some "b", some "a", some "a", none⟩],
            animations := [⟨none, none, none, none,
              some [⟨some 0, some [("a", ⟨none, some 0, some 0, none⟩)]⟩]⟩].map
                sanitize_animation }
    ∧ ((-(1/10) ≤ (sanitize_transform ⟨none, some 0, some 0, none⟩).translateX
        ∧ (sanitize_transform ⟨none, some 0, some 0, none⟩).translateX ≤ 1/10)
      ∧ (-(1/10) ≤ (sanitize_transform ⟨none, some 0, some 0, none⟩).translateY
        ∧ (sanitize_transform ⟨none, some 0, some 0, none⟩).translateY ≤ 1/10)) := by
  have hvb : (valid_bones_of [⟨some "a", none, some (1/2), some (1/2), none⟩]
      [⟨some "b", some "a", some "a", none⟩]).isEmpty = false := by decide
  have hD : analyze_image
      ⟨none, none, some [⟨some "a", none, some (1/2), some (1/2), none⟩],
        some [⟨some "b", some "a", some "a", none⟩],
        some [⟨none, none, none, none,
          some [⟨some 0, some [("a", ⟨none, some 0, some 0, none⟩)]⟩]⟩]⟩
      = AnalyzeResult.success
        { image_type := "unknown", description := "",
          anchors := [⟨some "a", none, some (1/2), some (1/2), none⟩].map
            sanitize_anchor,
          bones := valid_bones_of
            [⟨some "a", none, some (1/2), some (1/2), none⟩]
            [⟨some "b", some "a", some "a", none⟩],
          animations := [⟨none, none, none, none,
            some [⟨some 0, some [("a", ⟨none, some 0, some 0, none⟩)]⟩]⟩].map
              sanitize_animation } := by
    simp only [analyze_image, List.isEmpty_cons, Bool.false_eq_true, if_false,
      hvb, Option.getD_none]
  refine ⟨hD, ?_⟩
  exact claim_C4_translate_clamped.1 _ _ hD
    (sanitize_animation ⟨none, none, none, none,
      some [⟨some 0, some [("a", ⟨none, some 0, some 0, none⟩)]⟩]⟩)
    (by simp)
    [sanitize_keyframe ⟨some 0, some [("a", ⟨none, some 0, some 0, none⟩)]⟩]
    rfl
    (sanitize_keyframe ⟨some 0, some [("a", ⟨none, some 0, some 0, none⟩)]⟩)
    (by simp)
    [("a", sanitize_transform ⟨none, some 0, some 0, none⟩)]
    rfl
    ("a", sanitize_transform ⟨none, some 0, some 0, none⟩)
    (by simp)

/-- Claim C5 counterexample: a Refine success result can carry an anchor
outside [0, 1]: an original anchor at x = 1.5 for which the model returns
no correction is passed through unclamped. -/
theorem claim_C5_counterexample :
    refine_anchors [⟨"a", 3/2, 1/2⟩]
        (some [⟨"b", some (1/2), some (1/2), some false⟩])
      = RefineResult.success
          { anchors := [⟨"a", 3/2, 1/2, false⟩], corrected_count := 0,
            total_movement := 0 }
    ∧ ¬ ((3/2 : ℚ) ≤ 1) := by
  have hc : corrected_map [⟨"b", some (1/2), some (1/2), some false⟩] "a"
      = none := by
    simp [corrected_map, List.find?]
  constructor
  · rw [refine_anchors_eq_success _ _ (by simp) (by simp)]
    congr 1
    apply refine_success_ext
    · rw [refine_merge_anchors]
      simp only [List.map_cons, List.map_nil, merge_one]
      rw [hc]
    · rw [refine_merge_count]
      have hco : counts_one
          (corrected_map [⟨"b", some (1/2), some (1/2), some false⟩])
          ⟨"a", 3/2, 1/2⟩ = false := by
        unfold counts_one
        rw [hc]
      simp only [List.filter_cons, List.filter_nil, hco]
      simp
    · rw [refine_merge_total]
      have hdisp : displacement
          (corrected_map [⟨"b", some (1/2), some (1/2), some false⟩])
          ⟨"a", 3/2, 1/2⟩ = 0 := by
        unfold displacement
        rw [hc]
      simp only [List.map_cons, List.map_nil, hdisp]
      simpa using py_round6_zero
  · norm_num

/-- Claim C5 amended: every anchor of a Detect success result lies in
[0, 1] on both axes unconditionally; every anchor of a Refine success
result lies in [0, 1] provided every input anchor does - an input anchor
without a correction keeps its original, unclamped coordinates. -/
theorem claim_C5_amended :
    (∀ (data : AnalyzeData) (s : AnalyzeSuccess),
      analyze_image data = AnalyzeResult.success s →
      ∀ a ∈ s.anchors, 0 ≤ a.x ∧ a.x ≤ 1 ∧ 0 ≤ a.y ∧ a.y ≤ 1)
    ∧ (∀ (as : List Anchor) (d : Option (List RespAnchor))
        (r : RefineSuccess),
      refine_anchors as d = RefineResult.success r →
      (∀ o ∈ as, 0 ≤ o.x ∧ o.x ≤ 1 ∧ 0 ≤ o.y ∧ o.y ≤ 1) →
      ∀ b ∈ r.anchors, 0 ≤ b.x ∧ b.x ≤ 1 ∧ 0 ≤ b.y ∧ b.y ≤ 1) := by
  constructor
  · intro data s h a ha
    obtain ⟨ra, rb, anims, hA, hB, hN, hsa, hsb, hsan⟩ :=
      analyze_success_spec data s h
    rw [hsa] at ha
    obtain ⟨a0, _, rfl⟩ := List.mem_map.mp ha
    exact sanitize_anchor_range a0
  · intro as d r h hin b hb
    obtain ⟨cs, rfl, rfl, _, _⟩ := refine_success_spec as d r h
    exact refine_merge_anchors_range as cs hin b hb

/-- Claim C5 amended witness: one in-range input anchor with a correction,
whose Refine output the theorem bounds. -/
theorem claim_C5_amended_witness :
    (∀ o ∈ ([⟨"a", 1/2, 1/2⟩] : List Anchor),
      0 ≤ o.x ∧ o.x ≤ 1 ∧ 0 ≤ o.y ∧ o.y ≤ 1)
    ∧ (∀ b ∈ (refine_merge [⟨"a", 1/2, 1/2⟩]
        [⟨"a", some 1, some 0, none⟩]).anchors,
      0 ≤ b.x ∧ b.x ≤ 1 ∧ 0 ≤ b.y ∧ b.y ≤ 1) := by
  have hin : ∀ o ∈ ([⟨"a", 1/2, 1/2⟩] : List Anchor),
      0 ≤ o.x ∧ o.x ≤ 1 ∧ 0 ≤ o.y ∧ o.y ≤ 1 := by
    intro o ho
    rw [List.mem_singleton] at ho
    subst ho
    norm_num
  exact ⟨hin, claim_C5_amended.2 _ _ _
    (refine_anchors_eq_success _ _ (by simp) (by simp)) hin⟩

/-- Claim C6 counterexample: in the Refine correction merge, a model
anchor with missing coordinates defaults to the ORIGINAL coordinates, not
to 0.5: with the original at (0.3, 0.3) and a correction carrying no x, y,
the output keeps (0.3, 0.3), and 0.3 is not 0.5. -/
theorem claim_C6_counterexample :
    (refine_merge [⟨"a", 3/10, 3/10⟩] [⟨"a", none, none, some false⟩]).anchors
      = [⟨"a", 3/10, 3/10, false⟩]
    ∧ ((3/10 : ℚ) ≠ 1/2) := by
  have hc : corrected_map [⟨"a", none, none, some false⟩] "a"
      = some ⟨"a", none, none, some false⟩ := by
    simp [corrected_map, List.find?]
  constructor
  · rw [refine_merge_anchors]
    simp only [List.map_cons, List.map_nil, merge_one, hc]
    norm_num [merge_corrected, new_x, new_y, flag_corrected, clamp01,
      min_def, max_def]
  · norm_num

/-- Claim C6 amended: in the Detect sanitation a missing anchor coordinate
defaults to 0.5 before clamping; in the Refine correction merge a missing
corrected coordinate defaults to the original anchor coordinate (then
clamped), not to 0.5. -/
theorem claim_C6_amended :
    (∀ a : RawAnchor,
      (a.x? = none → (sanitize_anchor a).x = 1/2)
      ∧ (a.y? = none → (sanitize_anchor a).y = 1/2))
    ∧ (∀ (o : Anchor) (c : RespAnchor),
      (c.x? = none → new_x o c = clamp01 o.x)
      ∧ (c.y? = none → new_y o c = clamp01 o.y)) := by
  constructor
  · intro a
    constructor
    · intro h
      simp only [sanitize_anchor]
      rw [h]
      norm_num [clamp01, min_def, max_def]
    · intro h
      simp only [sanitize_anchor]
      rw [h]
      norm_num [clamp01, min_def, max_def]
  · intro o c
    constructor
    · intro h
      unfold new_x
      rw [h]
      rfl
    · intro h
      unfold new_y
      rw [h]
      rfl

/-- Claim C6 amended witness: a raw Detect anchor with both coordinates
missing gets x = 0.5. -/
theorem claim_C6_amended_witness :
    ((⟨some "a", none, none, none, none⟩ : RawAnchor).x? = none)
    ∧ (sanitize_anchor ⟨some "a", none, none, none, none⟩).x = 1/2 :=
  ⟨rfl, (claim_C6_amended.1 ⟨some "a", none, none, none, none⟩).1 rfl⟩

/-- Claim C7: a bone appears in a Detect success result exactly when both
its endpoints resolve to ids of the sanitized anchor set, and when no bone
survives the filter (all other checks passing) the operation returns the
no-valid-bones error instead of a success. -/
theorem claim_C7_bone_referential_integrity :
    (∀ (data : AnalyzeData) (s : AnalyzeSuccess),
      analyze_image data = AnalyzeResult.success s →
      ∀ rb, data.bones? = some rb →
        ∀ b : Bone, b ∈ s.bones ↔ (b ∈ rb
          ∧ bone_valid (s.anchors.map SAnchor.id) b = true))
    ∧ (∀ (data : AnalyzeData) (ra : List RawAnchor) (rb : List Bone)
        (anims : List Animation),
      data.anchors? = some ra → ra ≠ [] →
      data.bones? = some rb → rb ≠ [] →
      data.animations? = some anims → anims ≠ [] →
      valid_bones_of ra rb = [] →
      analyze_image data
        = AnalyzeResult.error ("No valid bones after validation")) := by
  constructor
  · intro data s h rb hrb b
    obtain ⟨ra, rb2, anims, hA, hB, hN, hsa, hsb, hsan⟩ :=
      analyze_success_spec data s h
    rw [hB] at hrb
    have hbb : rb2 = rb := Option.some.inj hrb
    subst hbb
    rw [hsb, hsa]
    unfold valid_bones_of anchor_ids_of
    exact List.mem_filter
  · exact fun data ra rb anims hA hra hB hrb hN hn hvb =>
      analyze_error_of_no_valid_bones data ra rb anims hA hra hB hrb hN hn hvb

/-- Claim C7 witness: a concrete Detect response with one anchor and one
bone whose endpoints resolve, instantiating the membership equivalence. -/
theorem claim_C7_bone_referential_integrity_witness :
    analyze_image
        ⟨none, none, some [⟨some "a", none, none, none, none⟩],
          some [⟨some "b", some "a", some "a", none⟩],
          some [⟨none, none, none, none, none⟩]⟩
      = AnalyzeResult.success
          { image_type := "unknown", description := "",
            anchors := [⟨some "a", none, none, none, none⟩].map sanitize_anchor,
            bones := valid_bones_of [⟨some "a", none, none, none, none⟩]
              [⟨some "b", some "a", some "a", none⟩],
            animations := [⟨none, none, none, none, none⟩].map
              sanitize_animation }
    ∧ ((⟨some "b", some "a", some "a", none⟩ : Bone)
        ∈ (valid_bones_of [⟨some "a", none, none, none, none⟩]
            [⟨some "b", some "a", some "a", none⟩])
      ↔ ((⟨some "b", some "a", some "a", none⟩ : Bone)
          ∈ [(⟨some "b", some "a", some "a", none⟩ : Bone)]
        ∧ bone_valid
            (([⟨some "a", none, none, none, none⟩].map sanitize_anchor).map
              SAnchor.id)
            ⟨some "b", some "a", some "a", none⟩ = true)) := by
  have hvb : (valid_bones_of [⟨some "a", none, none, none, none⟩]
      [⟨some "b", some "a", some "a", none⟩]).isEmpty = false := by decide
  have hD : analyze_image
      ⟨none, none, some [⟨some "a", none, none, none, none⟩],
        some [⟨some "b", some "a", some "a", none⟩],
        some [⟨none, none, none, none, none⟩]⟩
      = AnalyzeResult.success
        { image_type := "unknown", description := "",
          anchors := [⟨some "a", none, none, none, none⟩].map sanitize_anchor,
          bones := valid_bones_of [⟨some "a", none, none, none, none⟩]
            [⟨some "b", some "a", some "a", none⟩],
          animations := [⟨none, none, none, none, none⟩].map
            sanitize_animation } := by
    simp only [analyze_image, List.isEmpty_cons, Bool.false_eq_true, if_false,
      hvb, Option.getD_none]
  exact ⟨hD, claim_C7_bone_referential_integrity.1 _ _ hD
    [⟨some "b", some "a", some "a", none⟩] rfl
    ⟨some "b", some "a", some "a", none⟩⟩

/-- Claim C8 counterexample: the empty response lacks the animations key,
yet Detect reports the missing-anchors error, not the missing-animations
one - the anchors presence check runs first. -/
theorem claim_C8_counterexample :
    (⟨none, none, none, none, none⟩ : AnalyzeData).animations? = none
    ∧ analyze_image ⟨none, none, none, none, none⟩
      = AnalyzeResult.error ("AI did not detect any anchor points")
    ∧ ("AI did not detect any anchor points" : String)
      ≠ "AI did not generate any animations" := by
  refine ⟨rfl, rfl, ?_⟩
  decide

/-- Claim C8 amended: when the response carries non-empty anchors and
bones lists and its animations key is missing or empty, Detect yields
exactly the missing-animations error; and for each of the three operations
the process exit code is non-zero exactly when the result status is the
error one. -/
theorem claim_C8_amended :
    (∀ (data : AnalyzeData) (ra : List RawAnchor) (rb : List Bone),
      data.anchors? = some ra → ra ≠ [] →
      data.bones? = some rb → rb ≠ [] →
      (data.animations? = none ∨ data.animations? = some []) →
      analyze_image data
        = AnalyzeResult.error ("AI did not generate any animations"))
    ∧ (∀ r : AnalyzeResult, analyze_exit r ≠ 0 ↔ analyze_status r = "error")
    ∧ (∀ r : RefineResult, refine_exit r ≠ 0 ↔ refine_status r = "error")
    ∧ (∀ r : UpdateResult, update_exit r ≠ 0 ↔ update_status r = "error") := by
  refine ⟨?_, ?_, ?_, ?_⟩
  · exact fun data ra rb hA hra hB hrb hN =>
      analyze_error_of_no_animations data ra rb hA hra hB hrb hN
  · intro r
    cases r <;> simp [analyze_exit, analyze_status]
  · intro r
    cases r <;> simp [refine_exit, refine_status]
  · intro r
    cases r <;> simp [update_exit, update_status]

/-- Claim C8 amended witness: a response with one anchor and one bone but
no animations key yields the missing-animations error. -/
theorem claim_C8_amended_witness :
    ((⟨none, none, some [⟨some "a", none, none, none, none⟩],
        some [⟨some "b", some "a", some "a", none⟩], none⟩
      : AnalyzeData).animations? = none)
    ∧ analyze_image
        ⟨none, none, some [⟨some "a", none, none, none, none⟩],
          some [⟨some "b", some "a", some "a", none⟩], none⟩
      = AnalyzeResult.error ("AI did not generate any animations") :=
  ⟨rfl, claim_C8_amended.1 _ [⟨some "a", none, none, none, none⟩]
    [⟨some "b", some "a", some "a", none⟩] rfl (by simp) rfl (by simp)
    (Or.inl rfl)⟩

/-- Claim C9 counterexample: the first merge returns the anchor with
corrected = true (model flag true, zero movement); feeding that output back
as its own correction gives total_movement = 0 but corrected_count = 1, not
0 - the fed-back corrected flags are counted again. -/
theorem claim_C9_counterexample :
    (refine_merge [⟨"a", 1/2, 1/2⟩]
        [⟨"a", some (1/2), some (1/2), some true⟩]).anchors
      = [⟨"a", 1/2, 1/2, true⟩]
    ∧ (refine_merge ([⟨"a", 1/2, 1/2, true⟩].map out_to_anchor)
        ([⟨"a", 1/2, 1/2, true⟩].map out_to_resp)).corrected_count = 1
    ∧ (refine_merge ([⟨"a", 1/2, 1/2, true⟩].map out_to_anchor)
        ([⟨"a", 1/2, 1/2, true⟩].map out_to_resp)).total_movement = 0
    ∧ (1 : ℕ) ≠ 0 := by
  have hc : corrected_map [⟨"a", some (1/2), some (1/2), some true⟩] "a"
      = some ⟨"a", some (1/2), some (1/2), some true⟩ := by
    simp [corrected_map, List.find?]
  have hrange : ∀ b ∈ [(⟨"a", 1/2, 1/2, true⟩ : OutAnchor)],
      0 ≤ b.x ∧ b.x ≤ 1 ∧ 0 ≤ b.y ∧ b.y ≤ 1 := by
    intro b hb
    rw [List.mem_singleton] at hb
    subst hb
    norm_num
  have hnd : (([(⟨"a", 1/2, 1/2, true⟩ : OutAnchor)]).map OutAnchor.id).Nodup := by
    simp
  refine ⟨?_, ?_, refine_merge_feedback_total _ hrange hnd, by norm_num⟩
  · rw [refine_merge_anchors]
    simp only [List.map_cons, List.map_nil, merge_one]
    rw [hc]
    norm_num [merge_corrected, new_x, new_y, flag_corrected, clamp01,
      min_def, max_def]
  · rw [refine_merge_feedback_count _ hrange hnd]
    simp [List.filter]

/-- Claim C9 amended: for anchors with pairwise distinct ids and
coordinates already inside [0, 1], re-running the merge on its own output
(the output corrected flags fed back as the new model correction) yields
total_movement = 0 as claimed, but corrected_count equals the number of
output anchors whose corrected flag is true, which is 0 only when no
anchor was marked. -/
theorem claim_C9_amended :
    ∀ (as : List Anchor) (cs : List RespAnchor),
      (as.map Anchor.id).Nodup →
      (∀ o ∈ as, 0 ≤ o.x ∧ o.x ≤ 1 ∧ 0 ≤ o.y ∧ o.y ≤ 1) →
      (refine_merge (((refine_merge as cs).anchors).map out_to_anchor)
          (((refine_merge as cs).anchors).map out_to_resp)).total_movement
        = 0
      ∧ (refine_merge (((refine_merge as cs).anchors).map out_to_anchor)
          (((refine_merge as cs).anchors).map out_to_resp)).corrected_count
        = (((refine_merge as cs).anchors).filter OutAnchor.corrected).length := by
  intro as cs hnd hin
  have hrange := refine_merge_anchors_range as cs hin
  have hnd2 : (((refine_merge as cs).anchors).map OutAnchor.id).Nodup := by
    rw [refine_merge_ids]
    exact hnd
  exact ⟨refine_merge_feedback_total _ hrange hnd2,
    refine_merge_feedback_count _ hrange hnd2⟩

/-- Claim C9 amended witness: one in-range anchor, empty correction list. -/
theorem claim_C9_amended_witness :
    (([⟨"a", 1/2, 1/2⟩] : List Anchor).map Anchor.id).Nodup
    ∧ (∀ o ∈ ([⟨"a", 1/2, 1/2⟩] : List Anchor),
        0 ≤ o.x ∧ o.x ≤ 1 ∧ 0 ≤ o.y ∧ o.y ≤ 1)
    ∧ (refine_merge (((refine_merge [⟨"a", 1/2, 1/2⟩] []).anchors).map
          out_to_anchor)
        (((refine_merge [⟨"a", 1/2, 1/2⟩] []).anchors).map
          out_to_resp)).total_movement = 0 := by
  have hnd : (([⟨"a", 1/2, 1/2⟩] : List Anchor).map Anchor.id).Nodup := by
    simp
  have hin : ∀ o ∈ ([⟨"a", 1/2, 1/2⟩] : List Anchor),
      0 ≤ o.x ∧ o.x ≤ 1 ∧ 0 ≤ o.y ∧ o.y ≤ 1 := by
    intro o ho
    rw [List.mem_singleton] at ho
    subst ho
    norm_num
  exact ⟨hnd, hin, (claim_C9_amended [⟨"a", 1/2, 1/2⟩] [] hnd hin).1⟩

/-- Claim C10: dangling keyframe anchor references are pruned only by the
Regenerate operation - there, every keyframe entry keyed by an id outside
the supplied anchor set is removed and the survivors are kept sanitized
(second conjunct characterizes the surviving keys) - while the Detect
operation retains every keyframe entry, sanitizing its transform in place
and preserving the key list. -/
theorem claim_C10_keyframe_pruning :
    (∀ (as0 : List Anchor) (anims : List Animation) (out : List SAnimation),
      update_animations as0 (some anims) = UpdateResult.success out →
      List.Forall₂ (fun (a : Animation) (a' : SAnimation) =>
        List.Forall₂ (fun (kf : Keyframe) (kf' : SKeyframe) =>
          ∀ l, kf.anchors? = some l →
            kf'.anchors? = some
              ((l.filter (fun p => (as0.map Anchor.id).contains p.1)).map
                (fun p => (p.1, sanitize_transform p.2))))
          ((a.keyframes?).getD []) ((a'.keyframes?).getD [])) anims out)
    ∧ (∀ (ids : List String) (l : List (String × Transform)),
      (((l.filter (fun p => ids.contains p.1)).map
        (fun p => (p.1, sanitize_transform p.2))).map Prod.fst)
      = (l.map Prod.fst).filter (fun i => ids.contains i))
    ∧ (∀ (data : AnalyzeData) (s : AnalyzeSuccess) (anims : List Animation),
      analyze_image data = AnalyzeResult.success s →
      data.animations? = some anims →
      List.Forall₂ (fun (a : Animation) (a' : SAnimation) =>
        List.Forall₂ (fun (kf : Keyframe) (kf' : SKeyframe) =>
          ∀ l, kf.anchors? = some l →
            kf'.anchors? = some (l.map (fun p => (p.1, sanitize_transform p.2)))
            ∧ ∀ l', kf'.anchors? = some l' →
                l'.map Prod.fst = l.map Prod.fst)
          ((a.keyframes?).getD []) ((a'.keyframes?).getD []))
        anims s.animations) := by
  refine ⟨?_, ?_, ?_⟩
  · intro as0 anims out h
    obtain ⟨anims2, heq, hout, _, _⟩ := update_success_spec as0 (some anims) out h
    have haa : anims = anims2 := Option.some.inj heq
    subst haa
    rw [hout]
    apply forall2_map_self
    intro a _
    show List.Forall₂ _ ((a.keyframes?).getD [])
      (((a.keyframes?).map (List.map (update_keyframe (as0.map Anchor.id)))).getD [])
    cases hk : a.keyframes? with
    | none => exact List.Forall₂.nil
    | some kfs =>
      simp only [Option.map_some', Option.getD_some]
      apply forall2_map_self
      intro kf _ l hl
      show (update_keyframe (as0.map Anchor.id) kf).anchors? = _
      unfold update_keyframe
      rw [hl]
      rfl
  · intro ids l
    have h1 : ((l.filter (fun p => ids.contains p.1)).map
        (fun p => (p.1, sanitize_transform p.2))).map Prod.fst
        = (l.filter (fun p => ids.contains p.1)).map Prod.fst := by
      rw [List.map_map]
      exact List.map_congr_left (fun p _ => rfl)
    have h2 : (l.map Prod.fst).filter (fun i => ids.contains i)
        = (l.filter (fun p => ids.contains p.1)).map Prod.fst := by
      rw [List.filter_map]
      exact congrArg (List.map Prod.fst) (List.filter_congr (fun p _ => rfl))
    rw [h1, h2]
  · intro data s anims h hN2
    obtain ⟨ra, rb, anims2, hA, hB, hN, hsa, hsb, hsan⟩ :=
      analyze_success_spec data s h
    rw [hN] at hN2
    have haa : anims2 = anims := Option.some.inj hN2
    subst haa
    rw [hsan]
    apply forall2_map_self
    intro a _
    show List.Forall₂ _ ((a.keyframes?).getD [])
      (((a.keyframes?).map (List.map sanitize_keyframe)).getD [])
    cases hk : a.keyframes? with
    | none => exact List.Forall₂.nil
    | some kfs =>
      simp only [Option.map_some', Option.getD_some]
      apply forall2_map_self
      intro kf _ l hl
      have hkf : (sanitize_keyframe kf).anchors?
          = some (l.map (fun p => (p.1, sanitize_transform p.2))) := by
        unfold sanitize_keyframe
        rw [hl]
        rfl
      refine ⟨hkf, ?_⟩
      intro l' hl'
      rw [hkf] at hl'
      have hll : l.map (fun p => (p.1, sanitize_transform p.2)) = l' :=
        Option.some.inj hl'
      rw [← hll, List.map_map]
      exact List.map_congr_left (fun p _ => rfl)

/-- Claim C10 witness: one supplied anchor id a; a keyframe referencing a
and the dangling id b has the b entry pruned by Regenerate. -/
theorem claim_C10_keyframe_pruning_witness :
    update_animations [⟨"a", 0, 0⟩]
        (some [⟨none, none, none, none,
          some [⟨none, some [("a", ⟨none, none, none, none⟩),
            ("b", ⟨none, none, none, none⟩)]⟩]⟩])
      = UpdateResult.success
          ([⟨none, none, none, none,
            some [⟨none, some [("a", ⟨none, none, none, none⟩),
              ("b", ⟨none, none, none, none⟩)]⟩]⟩].map
            (update_animation ([(⟨"a", 0, 0⟩ : Anchor)].map Anchor.id)))
    ∧ List.Forall₂ (fun (a : Animation) (a' : SAnimation) =>
        List.Forall₂ (fun (kf : Keyframe) (kf' : SKeyframe) =>
          ∀ l, kf.anchors? = some l →
            kf'.anchors? = some
              ((l.filter (fun p =>
                  (([(⟨"a", 0, 0⟩ : Anchor)]).map Anchor.id).contains p.1)).map
                (fun p => (p.1, sanitize_transform p.2))))
          ((a.keyframes?).getD []) ((a'.keyframes?).getD []))
        [⟨none, none, none, none,
          some [⟨none, some [("a", ⟨none, none, none, none⟩),
            ("b", ⟨none, none, none, none⟩)]⟩]⟩]
        ([⟨none, none, none, none,
          some [⟨none, some [("a", ⟨none, none, none, none⟩),
            ("b", ⟨none, none, none, none⟩)]⟩]⟩].map
          (update_animation ([(⟨"a", 0, 0⟩ : Anchor)].map Anchor.id))) := by
  have hU : update_animations [⟨"a", 0, 0⟩]
      (some [⟨none, none, none, none,
        some [⟨none, some [("a", ⟨none, none, none, none⟩),
          ("b", ⟨none, none, none, none⟩)]⟩]⟩])
      = UpdateResult.success
        ([⟨none, none, none, none,
          some [⟨none, some [("a", ⟨none, none, none, none⟩),
            ("b", ⟨none, none, none, none⟩)]⟩]⟩].map
          (update_animation ([(⟨"a", 0, 0⟩ : Anchor)].map Anchor.id))) := by
    simp only [update_animations, List.isEmpty_cons, Bool.false_eq_true,
      if_false]
  exact ⟨hU, claim_C10_keyframe_pruning.1 [⟨"a", 0, 0⟩] _ _ hU⟩

end SpineStudio
